import Mathlib

/-!
Shallow embedding of `prompt_toolkit/formatted_text/base.py` and proofs about
its normalization, template and merge operations.

Python values relevant to this module are embedded as the inductive `PyVal`;
Python exceptions as `PyError`.  Functions are translated branch for branch
from the source: `to_formatted_text` (its dispatch chain, the first-element
asserts, the two style-application comprehensions with the `except ValueError`
fallback, and the final `FormattedText` wrapping), `Template.format` with its
inner `get_result` closure, and `merge_formatted_text`.
-/

namespace PromptToolkit

/-- The universe of Python values this module manipulates.
`magic v` is an object whose `__pt_formatted_text__()` returns `v`;
`thunk v` is a zero-argument callable returning `v` (each invocation yields
the same value); `fmt xs` is a `FormattedText` instance (a `list` subclass),
`list xs` a plain list, `tuple fs` a tuple of fields. -/
inductive PyVal : Type where
  | none  : PyVal
  | str   : String → PyVal
  | int   : Int → PyVal
  | tuple : List PyVal → PyVal
  | list  : List PyVal → PyVal
  | fmt   : List PyVal → PyVal
  | magic : PyVal → PyVal
  | thunk : PyVal → PyVal

/-- Python exceptions raised by this module.  `assertionError` carries the
offending value when the failing assert has a message naming one
(`'Expecting string, got: %r'`); `valueErrorNoFormattedText` is the
`ValueError('No formatted text. ... Got %r')` carrying the rejected value;
`valueErrorUnpack` is the `ValueError` raised by tuple unpacking inside the
style comprehension. -/
inductive PyError : Type where
  | assertionError : Option PyVal → PyError
  | valueErrorUnpack : PyError
  | valueErrorNoFormattedText : PyVal → PyError
  | typeError : PyError
  | indexError : PyError

/-- `isinstance(v, str)`. -/
def isStrVal : PyVal → Bool
  | .str _ => true
  | _ => false

/-- Iterating a Python value: lists, `FormattedText`, tuples and strings are
iterable (a string yields its characters as one-character strings); other
values raise `TypeError`. -/
def pyIter : PyVal → Except PyError (List PyVal)
  | .list xs => .ok xs
  | .fmt xs => .ok xs
  | .tuple xs => .ok xs
  | .str s => .ok (s.data.map (fun c => .str (String.mk [c])))
  | _ => .error .typeError

/-- Subscripting `v[i]` with a non-negative index: out of range raises
`IndexError`, unsubscriptable values raise `TypeError`. -/
def getItem : PyVal → Nat → Except PyError PyVal
  | .tuple xs, i => if h : i < xs.length then .ok (xs.get ⟨i, h⟩) else .error .indexError
  | .list xs, i => if h : i < xs.length then .ok (xs.get ⟨i, h⟩) else .error .indexError
  | .fmt xs, i => if h : i < xs.length then .ok (xs.get ⟨i, h⟩) else .error .indexError
  | .str s, i =>
      if h : i < s.data.length then .ok (.str (String.mk [s.data.get ⟨i, h⟩]))
      else .error .indexError
  | _, _ => .error .typeError

/-- Slicing `v[1:]`: tuples and strings slice to their own type; slicing a
list (or a list subclass such as `FormattedText`) yields a plain list. -/
def sliceFrom1 : PyVal → Except PyError PyVal
  | .tuple xs => .ok (.tuple xs.tail)
  | .list xs => .ok (.list xs.tail)
  | .fmt xs => .ok (.list xs.tail)
  | .str s => .ok (.str (s.drop 1))
  | _ => .error .typeError

/-- Unpacking `k, v = item`: `item` must be iterable (else `TypeError`) and
yield exactly two elements (else `ValueError`). -/
def unpack2 (item : PyVal) : Except PyError (PyVal × PyVal) :=
  match pyIter item with
  | .error e => .error e
  | .ok [a, b] => .ok (a, b)
  | .ok _ => .error .valueErrorUnpack

/-- One element of the fast style comprehension
`(style + ' ' + k, v) for k, v in result`. -/
def fastOne (style : String) (item : PyVal) : Except PyError PyVal :=
  match unpack2 item with
  | .error e => .error e
  | .ok (.str k, v) => .ok (.tuple [.str (style ++ " " ++ k), v])
  | .ok _ => .error .typeError

/-- One element of the slow style comprehension
`(style + ' ' + item[0], ) + item[1:] for item in result`. -/
def slowOne (style : String) (item : PyVal) : Except PyError PyVal :=
  match getItem item 0 with
  | .error e => .error e
  | .ok (.str k) =>
      match sliceFrom1 item with
      | .error e => .error e
      | .ok (.tuple rs) => .ok (.tuple (.str (style ++ " " ++ k) :: rs))
      | .ok _ => .error .typeError
  | .ok _ => .error .typeError

/-- A list comprehension over already-obtained elements: left to right, the
first exception aborts the whole comprehension. -/
def comprehend (f : PyVal → Except PyError PyVal) : List PyVal → Except PyError (List PyVal)
  | [] => .ok []
  | x :: xs =>
      match f x with
      | .error e => .error e
      | .ok y =>
          match comprehend f xs with
          | .error e => .error e
          | .ok ys => .ok (y :: ys)

/-- Which exceptions `except ValueError` catches. -/
def isValueError : PyError → Bool
  | .valueErrorUnpack => true
  | .valueErrorNoFormattedText _ => true
  | _ => false

/-- The `# Apply extra style.` block: when `style` is non-empty, try the fast
comprehension; on a `ValueError` fall back to the slow comprehension over the
same `result`.  Both comprehensions build a plain Python list. -/
def styled (style : String) (result : PyVal) : Except PyError PyVal :=
  if style = "" then .ok result
  else
    match pyIter result with
    | .error e => .error e
    | .ok xs =>
      match comprehend (fastOne style) xs with
      | .ok ys => .ok (.list ys)
      | .error e =>
        if isValueError e then
          match comprehend (slowOne style) xs with
          | .ok ys => .ok (.list ys)
          | .error e2 => .error e2
        else .error e

/-- The two asserts guarding a non-empty list input:
`assert isinstance(value[0][0], str)` then `assert isinstance(value[0][1], str)`,
each carrying the offending value in its message. -/
def firstCheck : List PyVal → Except PyError Unit
  | [] => .ok ()
  | e :: _ =>
      match getItem e 0 with
      | .error er => .error er
      | .ok (.str _) =>
          match getItem e 1 with
          | .error er => .error er
          | .ok (.str _) => .ok ()
          | .ok f1 => .error (.assertionError (Option.some f1))
      | .ok f0 => .error (.assertionError (Option.some f0))

/-- The final wrapping: `result` is returned as-is when it already is a
`FormattedText` (the boolean flag `true` records that the returned object
pre-existed the call, i.e. the `return result` path ran); otherwise
`FormattedText(result)` constructs a fresh object from `result`'s elements
(flag `false`). -/
def wrapF : PyVal → Except PyError (PyVal × Bool)
  | .fmt xs => .ok (.fmt xs, true)
  | other => (pyIter other).map (fun xs => (.fmt xs, false))

/-- Style application followed by the final wrapping, shared by every branch
of `to_formatted_text` except the callable branch (which returns the
recursive call directly) and the raising branch. -/
def finishWith (result : PyVal) (style : String) : Except PyError (PyVal × Bool) :=
  match styled style result with
  | .error e => .error e
  | .ok r => wrapF r

mutual
/-- Python `repr`.  Reprs of magic objects and functions are
identity-dependent in Python (`<... object at 0x...>`); they are modelled by
fixed placeholder strings, which is irrelevant to the module because such
values never reach the auto-convert branch. -/
def pyRepr : PyVal → String
  | .none => "None"
  | .str s => String.singleton (Char.ofNat 39) ++ s ++ String.singleton (Char.ofNat 39)
  | .int n => toString n
  | .tuple [x] => "(" ++ pyRepr x ++ ",)"
  | .tuple xs => "(" ++ pyReprSep xs ++ ")"
  | .list xs => "[" ++ pyReprSep xs ++ "]"
  | .fmt xs => "FormattedText([" ++ pyReprSep xs ++ "])"
  | .magic _ => "<MagicFormattedText object>"
  | .thunk _ => "<function>"

/-- Comma-separated reprs of a list of values. -/
def pyReprSep : List PyVal → String
  | [] => ""
  | [x] => pyRepr x
  | x :: rest => pyRepr x ++ ", " ++ pyReprSep rest
end

/-- Python `str` / `'{}'.format`: a string formats to itself, everything else
to its repr (true for the types in `PyVal`). -/
def pyStr : PyVal → String
  | .str s => s
  | v => pyRepr v

/-- `to_formatted_text(value, style, auto_convert)`, instrumented with a
boolean recording whether the returned `FormattedText` object pre-existed the
call (source path `return result`) or was freshly constructed (source path
`return FormattedText(result)`).  Branches in source order:
`value is None`; `isinstance(value, str)`; `isinstance(value, list)` (which a
`FormattedText` instance also satisfies) with the first-element asserts;
`hasattr(value, '__pt_formatted_text__')` with the returned value used
directly as `result`; `callable(value)` returning
`to_formatted_text(value(), style=style)` (note: `auto_convert` is not
forwarded); the `auto_convert` coercion; and the `ValueError` raise. -/
def to_formatted_text_impl : PyVal → String → Bool → Except PyError (PyVal × Bool)
  | .none, style, _ => finishWith (.list []) style
  | .str s, style, _ => finishWith (.list [.tuple [.str "", .str s]]) style
  | .list xs, style, _ =>
      (match firstCheck xs with
       | .error e => .error e
       | .ok _ => finishWith (.list xs) style)
  | .fmt xs, style, _ =>
      (match firstCheck xs with
       | .error e => .error e
       | .ok _ => finishWith (.fmt xs) style)
  | .magic inner, style, _ => finishWith inner style
  | .thunk inner, style, _ => to_formatted_text_impl inner style false
  | .int n, style, auto_convert =>
      if auto_convert then finishWith (.list [.tuple [.str "", .str (pyStr (.int n))]]) style
      else .error (.valueErrorNoFormattedText (.int n))
  | .tuple fs, style, auto_convert =>
      if auto_convert then finishWith (.list [.tuple [.str "", .str (pyStr (.tuple fs))]]) style
      else .error (.valueErrorNoFormattedText (.tuple fs))

/-- `to_formatted_text` as callers see it: the returned value, without the
sharing instrumentation. -/
def to_formatted_text (value : PyVal) (style : String) (auto_convert : Bool) :
    Except PyError PyVal :=
  (to_formatted_text_impl value style auto_convert).map Prod.fst

/-- Python `text.split(sep)` for a non-empty separator, on character lists,
with fuel (the input length suffices). -/
def splitAux (sep : List Char) : Nat → List Char → List Char → List (List Char)
  | _, [], acc => [acc.reverse]
  | 0, l, acc => [acc.reverse ++ l]
  | n + 1, c :: rest, acc =>
      if sep.isPrefixOf (c :: rest) then
        acc.reverse :: splitAux sep n (List.drop (sep.length - 1) rest) []
      else
        splitAux sep n rest (c :: acc)

/-- Python `s.split(sep)` for a non-empty separator string. -/
def pySplit (sep : String) (s : String) : List String :=
  (splitAux sep.data s.data.length s.data []).map (fun l => String.mk l)

/-- The loop of `get_result`: `for part, val in zip(parts, values):
result.append(('', part)); result.extend(to_formatted_text(val))`.
`zip` stops at the shorter of the two lists. -/
def interleaveParts : List String → List PyVal → Except PyError (List PyVal)
  | _, [] => .ok []
  | [], _ :: _ => .ok []
  | p :: ps, v :: vs =>
      match to_formatted_text v "" false with
      | .error e => .error e
      | .ok fv =>
          match pyIter fv with
          | .error e => .error e
          | .ok items =>
              match interleaveParts ps vs with
              | .error e => .error e
              | .ok rest => .ok (PyVal.tuple [.str "", .str p] :: items ++ rest)

/-- The body of the `get_result` closure built by `Template.format`: split the
template on the placeholder marker, assert the arity, interleave literal parts
with normalized arguments, and append the final part. -/
def template_get_result (text : String) (values : List PyVal) : Except PyError PyVal :=
  let parts := pySplit "\x7b\x7d" text
  if parts.length - 1 = values.length then
    match interleaveParts parts values with
    | .error e => .error e
    | .ok mid =>
        match parts.getLast? with
        | Option.some last => .ok (.fmt (mid ++ [.tuple [.str "", .str last]]))
        | Option.none => .error .indexError
  else .error (.assertionError Option.none)

namespace Template

/-- `Template.format(*values)`: the body only defines `get_result` and returns
it; it cannot raise, hence always `Except.ok` of the producer closure. -/
def format (text : String) (values : List PyVal) :
    Except PyError (Unit → Except PyError PyVal) :=
  .ok (fun _ => template_get_result text values)

end Template

/-- The loop of `merge_formatted_text`'s inner closure:
`for i in items: result.extend(to_formatted_text(i))`. -/
def merge_runs : List PyVal → Except PyError (List PyVal)
  | [] => .ok []
  | i :: is =>
      match to_formatted_text i "" false with
      | .error e => .error e
      | .ok fv =>
          match pyIter fv with
          | .error e => .error e
          | .ok xs =>
              match merge_runs is with
              | .error e => .error e
              | .ok rest => .ok (xs ++ rest)

/-- `merge_formatted_text(items)`: returns a zero-argument producer that, when
invoked, builds a fresh `FormattedText` by concatenating the normalization of
each item in iteration order. -/
def merge_formatted_text (items : List PyVal) : Unit → Except PyError PyVal :=
  fun _ => (merge_runs items).map .fmt

/-- A well-formed run: a 2-field or 3-field tuple whose style and text fields
are strings (the third field, when present, is arbitrary, e.g. a mouse
handler). -/
def isRun : PyVal → Bool
  | .tuple [.str _, .str _] => true
  | .tuple [.str _, .str _, _] => true
  | _ => false

/-- Style prefixing of one run as both comprehensions perform it: the leading
style field becomes `style ++ " " ++` the original, the remaining fields are
kept verbatim. -/
def prefixRun (style : String) : PyVal → PyVal
  | .tuple (.str st :: rest) => .tuple (.str (style ++ " " ++ st) :: rest)
  | v => v

/-- The values falling through every dispatch branch of `to_formatted_text`:
not `None`, not a string, not a list (nor a list subclass), without
`__pt_formatted_text__`, not callable. -/
def matchesNoBranch : PyVal → Bool
  | .int _ => true
  | .tuple _ => true
  | _ => false

end PromptToolkit

namespace PromptToolkit

/-! ## Helper lemmas -/

/-- A value satisfying `isRun` is a 2-field or 3-field tuple with string
style and text fields. -/
theorem isRun_shape (e : PyVal) (h : isRun e = true) :
    (∃ a b, e = .tuple [.str a, .str b]) ∨ (∃ a b c, e = .tuple [.str a, .str b, c]) := by
  unfold isRun at h
  split at h
  · exact Or.inl ⟨_, _, rfl⟩
  · exact Or.inr ⟨_, _, _, rfl⟩
  · exact absurd h (by simp)

/-- A list of well-formed runs passes the first-element asserts. -/
theorem firstCheck_of_runs (xs : List PyVal) (h : ∀ e ∈ xs, isRun e = true) :
    firstCheck xs = .ok () := by
  cases xs with
  | nil => rfl
  | cons e es =>
      rcases isRun_shape e (h e (List.mem_cons_self _ _)) with ⟨a, b, rfl⟩ | ⟨a, b, c, rfl⟩ <;> rfl

/-- The slow style comprehension prefixes every well-formed run. -/
theorem comprehend_slowOne_runs (s : String) :
    ∀ xs : List PyVal, (∀ e ∈ xs, isRun e = true) →
      comprehend (slowOne s) xs = .ok (List.map (prefixRun s) xs)
  | [], _ => rfl
  | e :: es, h => by
      have ih := comprehend_slowOne_runs s es (fun x hx => h x (List.mem_cons_of_mem _ hx))
      rcases isRun_shape e (h e (List.mem_cons_self _ _)) with ⟨a, b, rfl⟩ | ⟨a, b, c, rfl⟩ <;>
        simp [comprehend, slowOne, getItem, sliceFrom1, prefixRun, ih]

/-- The fast style comprehension over well-formed runs either prefixes every
run (all runs are 2-tuples) or aborts with the unpacking `ValueError` (some
run has a third field). -/
theorem comprehend_fastOne_runs (s : String) :
    ∀ xs : List PyVal, (∀ e ∈ xs, isRun e = true) →
      comprehend (fastOne s) xs = .ok (List.map (prefixRun s) xs) ∨
      comprehend (fastOne s) xs = .error .valueErrorUnpack
  | [], _ => Or.inl rfl
  | e :: es, h => by
      have ih := comprehend_fastOne_runs s es (fun x hx => h x (List.mem_cons_of_mem _ hx))
      rcases isRun_shape e (h e (List.mem_cons_self _ _)) with ⟨a, b, rfl⟩ | ⟨a, b, c, rfl⟩
      · rcases ih with ih | ih
        · exact Or.inl (by simp [comprehend, fastOne, unpack2, pyIter, prefixRun, ih])
        · exact Or.inr (by simp [comprehend, fastOne, unpack2, pyIter, ih])
      · exact Or.inr rfl

/-- Non-empty style application over a plain list of well-formed runs
prefixes every run, whether the fast or the slow comprehension completes. -/
theorem styled_list_runs (s : String) (hs : ¬ s = "") (xs : List PyVal)
    (h : ∀ e ∈ xs, isRun e = true) :
    styled s (.list xs) = .ok (.list (List.map (prefixRun s) xs)) := by
  rcases comprehend_fastOne_runs s xs h with hf | hf <;>
    simp [styled, hs, pyIter, hf, comprehend_slowOne_runs s xs h, isValueError]

/-! ## Claims -/

/-- C1 (corrected): for a zero-argument producer returning `v`,
`to_formatted_text` invokes it and recursively normalizes `v`, passing the
style through to the recursive call (so style is applied exactly once) — but
the auto-convert flag is NOT passed through: the recursive call always runs
with auto-conversion disabled. -/
theorem producer_resolution (v : PyVal) (style : String) (auto_convert : Bool) :
    to_formatted_text (.thunk v) style auto_convert = to_formatted_text v style false := rfl

/-- C1 counterexample: with auto-conversion enabled, normalizing a producer
returning `42` raises, while normalizing `42` directly succeeds, so the
claimed equation `normalize(p, style, autoConvert) = normalize(v, style,
autoConvert)` fails at `p = (lambda: 42)`, `style = ""`, `autoConvert =
True`. -/
theorem producer_resolution_autoconvert_cex :
    to_formatted_text (.thunk (.int 42)) "" true =
      .error (.valueErrorNoFormattedText (.int 42)) ∧
    to_formatted_text (.int 42) "" true = .ok (.fmt [.tuple [.str "", .str "42"]]) ∧
    to_formatted_text (.thunk (.int 42)) "" true ≠ to_formatted_text (.int 42) "" true := by
  have h1 : to_formatted_text (.thunk (.int 42)) "" true =
      .error (.valueErrorNoFormattedText (.int 42)) := rfl
  have h2 : to_formatted_text (.int 42) "" true =
      .ok (.fmt [.tuple [.str "", .str "42"]]) := rfl
  refine ⟨h1, h2, fun heq => ?_⟩
  rw [h1, h2] at heq
  exact Except.noConfusion heq

/-- C6: a value matching no dispatch branch raises the unsupported-input
`ValueError` reporting the value when auto-conversion is disabled (whatever
the style), and yields the single run `("", str(value))` when enabled. -/
theorem unsupported_input (v : PyVal) (h : matchesNoBranch v = true) :
    (∀ style : String, to_formatted_text v style false =
        .error (.valueErrorNoFormattedText v)) ∧
    to_formatted_text v "" true = .ok (.fmt [.tuple [.str "", .str (pyStr v)]]) := by
  cases v <;> first
    | exact ⟨fun _ => rfl, rfl⟩
    | exact absurd h (by simp [matchesNoBranch])

/-- C6 witness at the spec's example `42`. -/
theorem unsupported_input_witness :
    to_formatted_text (.int 42) "" false = .error (.valueErrorNoFormattedText (.int 42)) ∧
    to_formatted_text (.int 42) "" true = .ok (.fmt [.tuple [.str "", .str "42"]]) :=
  ⟨(unsupported_input (.int 42) rfl).1 "", (unsupported_input (.int 42) rfl).2⟩

/-- C10 (corrected): a first element with fewer than two fields crashes the
first-element asserts with `IndexError` from the out-of-range subscript —
for an empty tuple (the `value[0][0]` subscript), and for a 1-tuple whose
single field is a string (the `value[0][1]` subscript).  (A 1-tuple with a
non-string field instead fails the type-contract assert on its first field;
see the counterexample.) -/
theorem short_first_element_index_error (s : String) (a : Bool) (t : String)
    (rest : List PyVal) :
    to_formatted_text (.list (.tuple [] :: rest)) s a = .error .indexError ∧
    to_formatted_text (.list (.tuple [.str t] :: rest)) s a = .error .indexError :=
  ⟨rfl, rfl⟩

/-- C10 counterexample: the 1-tuple `(7,)` has fewer than two fields, yet
`to_formatted_text` fails with the descriptive type-contract assert on its
first field, not with an out-of-bounds indexing error — refuting the claim
for every short first element. -/
theorem short_first_element_assert_cex :
    to_formatted_text (.list [.tuple [.int 7]]) "" false =
      .error (.assertionError (Option.some (.int 7))) := rfl

/-- C5: a non-empty list whose first element has a non-string style field (or
a string style but non-string text field) raises the type-contract assert
carrying the offending value, for any style and auto-convert flag; and only
the first element is checked: with default arguments, a list whose first
element is a well-formed run is accepted verbatim whatever the later
elements. -/
theorem first_element_validation (s : String) (a : Bool) (f0 f1 : PyVal)
    (fs rest : List PyVal) :
    (isStrVal f0 = false →
      to_formatted_text (.list (.tuple (f0 :: f1 :: fs) :: rest)) s a =
        .error (.assertionError (Option.some f0))) ∧
    (isStrVal f0 = true → isStrVal f1 = false →
      to_formatted_text (.list (.tuple (f0 :: f1 :: fs) :: rest)) s a =
        .error (.assertionError (Option.some f1))) ∧
    (∀ st tx : String,
      to_formatted_text (.list (.tuple [.str st, .str tx] :: rest)) "" false =
        .ok (.fmt (.tuple [.str st, .str tx] :: rest))) := by
  refine ⟨?_, ?_, fun st tx => rfl⟩
  · intro h0
    cases f0 <;>
      simp_all [isStrVal, to_formatted_text, to_formatted_text_impl, firstCheck, getItem,
        Except.map]
  · intro h0 h1
    cases f0 <;> cases f1 <;>
      simp_all [isStrVal, to_formatted_text, to_formatted_text_impl, firstCheck, getItem,
        Except.map]

/-- C5 witness: `[(1, "x")]` raises the assert carrying `1`. -/
theorem first_element_validation_witness :
    to_formatted_text (.list [.tuple [.int 1, .str "x"]]) "" false =
      .error (.assertionError (Option.some (.int 1))) :=
  (first_element_validation "" false (.int 1) (.str "x") [] []).1 rfl

/-- C7 (corrected): a canonical `FormattedText` input with empty style (and a
well-formed first element) is returned as the very object that was passed in
— the instrumentation flag `true` records that the source's `return result`
path ran on a pre-existing object rather than constructing a fresh
`FormattedText`.  The same shared return also happens when a producer or a
self-describing object resolves to a pre-existing canonical value under an
empty style, so the canonical-input case is not the only aliasing case. -/
theorem canonical_identity (xs : List PyVal) (a : Bool) (h : firstCheck xs = .ok ()) :
    to_formatted_text_impl (.fmt xs) "" a = .ok (.fmt xs, true) ∧
    to_formatted_text_impl (.thunk (.fmt xs)) "" a = .ok (.fmt xs, true) ∧
    to_formatted_text_impl (.magic (.fmt xs)) "" a = .ok (.fmt xs, true) := by
  have key : ∀ b : Bool, to_formatted_text_impl (.fmt xs) "" b = .ok (.fmt xs, true) := by
    intro b
    simp [to_formatted_text_impl, h, finishWith, styled, wrapF]
  have hthunk : to_formatted_text_impl (.thunk (.fmt xs)) "" a =
      to_formatted_text_impl (.fmt xs) "" false := rfl
  exact ⟨key a, by rw [hthunk]; exact key false, rfl⟩

/-- C7 witness: a concrete canonical value comes back as itself, shared. -/
theorem canonical_identity_witness :
    to_formatted_text_impl (.fmt [.tuple [.str "a", .str "b"]]) "" false =
      .ok (.fmt [.tuple [.str "a", .str "b"]], true) :=
  (canonical_identity [.tuple [.str "a", .str "b"]] false rfl).1

/-- C7 counterexample to exclusivity: a self-describing (magic) object — not
a value of the canonical type — also makes `to_formatted_text` return a
pre-existing canonical object by reference (shared flag `true`), so the
canonical-input case is not "the only case in which the result aliases
caller-owned structure". -/
theorem canonical_identity_only_case_cex :
    to_formatted_text_impl (.magic (.fmt [])) "" false = .ok (.fmt [], true) := rfl


/-- C4: with a non-empty style, every well-formed run (2-field or 3-field,
mixed arities allowed) is rebuilt with style field `s ++ " " ++`
the original style, text and trailing fields verbatim. -/
theorem style_prefix_uniform (s : String) (hs : ¬ s = "") (xs : List PyVal)
    (h : ∀ e ∈ xs, isRun e = true) :
    to_formatted_text (.list xs) s false = .ok (.fmt (List.map (prefixRun s) xs)) := by
  simp [to_formatted_text, to_formatted_text_impl, firstCheck_of_runs xs h, finishWith,
    styled_list_runs s hs xs h, wrapF, pyIter, Except.map]

/-- C4 witness: a mixed 2-field / 3-field sequence, style prefixed uniformly,
the mouse-handler field kept verbatim. -/
theorem style_prefix_uniform_witness :
    to_formatted_text
        (.list [.tuple [.str "a", .str "b"], .tuple [.str "c", .str "d", .thunk (.int 0)]])
        "bold" false =
      .ok (.fmt [.tuple [.str "bold a", .str "b"],
                 .tuple [.str "bold c", .str "d", .thunk (.int 0)]]) :=
  style_prefix_uniform "bold" (by decide)
    [.tuple [.str "a", .str "b"], .tuple [.str "c", .str "d", .thunk (.int 0)]]
    (by intro e he; fin_cases he <;> rfl)

/-- C2 (corrected): for a self-describing object, the returned value is used
directly as the run list, without recursive normalization and without the
first-element asserts.  When the returned value is a list of well-formed
runs, the result coincides with normalizing that list with the same style
(style applied exactly once); when it is a string or another
self-describing object, it is not normalized recursively (see the
counterexample). -/
theorem magic_runlist_resolution (xs : List PyVal) (s : String) (a : Bool)
    (h : ∀ e ∈ xs, isRun e = true) :
    to_formatted_text (.magic (.list xs)) s a = to_formatted_text (.list xs) s a := by
  simp [to_formatted_text, to_formatted_text_impl, firstCheck_of_runs xs h]

/-- C2 witness: a one-run list returned by the capability normalizes exactly
as the list itself under style `"bold"`. -/
theorem magic_runlist_resolution_witness :
    to_formatted_text (.magic (.list [.tuple [.str "x", .str "y"]])) "bold" false =
      to_formatted_text (.list [.tuple [.str "x", .str "y"]]) "bold" false :=
  magic_runlist_resolution [.tuple [.str "x", .str "y"]] "bold" false
    (by intro e he; fin_cases he; rfl)

/-- C2 counterexample: a self-describing object returning the string `"hi"`
under style `"bold"` raises `TypeError` (the string is iterated as
characters and a 1-tuple is concatenated with a string slice), while
recursive normalization of `"hi"` with the style applied once yields the
single run `("bold ", "hi")` — so the claimed equality fails for a
string-shaped return value. -/
theorem magic_string_resolution_cex :
    to_formatted_text (.magic (.str "hi")) "bold" false = .error .typeError ∧
    to_formatted_text (.str "hi") "bold" false =
      .ok (.fmt [.tuple [.str "bold ", .str "hi"]]) ∧
    to_formatted_text (.magic (.str "hi")) "bold" false ≠
      to_formatted_text (.str "hi") "bold" false := by
  have h1 : to_formatted_text (.magic (.str "hi")) "bold" false = .error .typeError := rfl
  have h2 : to_formatted_text (.str "hi") "bold" false =
      .ok (.fmt [.tuple [.str "bold ", .str "hi"]]) := rfl
  refine ⟨h1, h2, fun heq => ?_⟩
  rw [h1, h2] at heq
  exact Except.noConfusion heq

/-- C3 (corrected): an argument count differing from the placeholder count
is not checked when `format` is called — `format` only builds and returns
the producer closure — but invoking the producer fails the arity assert
before any interleaving work (for every argument list, even one whose
normalization would itself fail). -/
theorem template_arity_checked_at_invocation (text : String) (values : List PyVal)
    (h : ¬ (pySplit "\x7b\x7d" text).length - 1 = values.length) :
    (Template.format text values).toOption.map (fun p => p ()) =
      Option.some (Except.error (PyError.assertionError Option.none)) := by
  simp [Template.format, Except.toOption, template_get_result, h]

/-- C3 witness: `Template("a\x7b\x7db").format(x, y)` — 2 arguments, 1
marker — returns a producer whose invocation raises the arity assert. -/
theorem template_arity_checked_at_invocation_witness :
    (Template.format "a\x7b\x7db" [PyVal.str "x", PyVal.str "y"]).toOption.map
        (fun p => p ()) =
      Option.some (Except.error (PyError.assertionError Option.none)) :=
  template_arity_checked_at_invocation "a\x7b\x7db" [PyVal.str "x", PyVal.str "y"]
    (by decide)

/-- C3 counterexample: calling `format` with mismatched arity does NOT raise
— it returns a producer (`isSome`) — and the arity violation only surfaces
when that producer is invoked, refuting "raises at the time format is
invoked". -/
theorem template_arity_format_time_cex :
    (Template.format "a\x7b\x7db" [PyVal.str "x", PyVal.str "y"]).toOption.isSome = true ∧
    (Template.format "a\x7b\x7db" [PyVal.str "x", PyVal.str "y"]).toOption.map
        (fun p => p ()) =
      Option.some (Except.error (PyError.assertionError Option.none)) :=
  ⟨rfl, rfl⟩


/-- `merge_runs` concatenates the normalized runs of each item, in order. -/
theorem merge_runs_concat :
    ∀ {items : List PyVal} {rs : List (List PyVal)},
      List.Forall₂ (fun i r => to_formatted_text i "" false = .ok (.fmt r)) items rs →
      merge_runs items = .ok rs.flatten := by
  intro items rs h
  induction h with
  | nil => rfl
  | cons hir _ ih => simp [merge_runs, hir, pyIter, ih, List.flatten]

/-- C9: invoking the producer returned by `merge_formatted_text` yields the
concatenation of the normalized items in input iteration order (the producer
is pure, so repeated invocation trivially yields the same result). -/
theorem merge_concatenation (items : List PyVal) (rs : List (List PyVal))
    (h : List.Forall₂ (fun i r => to_formatted_text i "" false = .ok (.fmt r)) items rs) :
    merge_formatted_text items () = .ok (.fmt rs.flatten) := by
  simp [merge_formatted_text, merge_runs_concat h, Except.map]

/-- C9 witness: three strings merge to their three runs in order. -/
theorem merge_concatenation_witness :
    merge_formatted_text [PyVal.str "p", PyVal.str "q", PyVal.str "r"] () =
      .ok (.fmt [.tuple [.str "", .str "p"], .tuple [.str "", .str "q"],
                 .tuple [.str "", .str "r"]]) :=
  merge_concatenation [PyVal.str "p", PyVal.str "q", PyVal.str "r"]
    [[.tuple [.str "", .str "p"]], [.tuple [.str "", .str "q"]], [.tuple [.str "", .str "r"]]]
    (.cons rfl (.cons rfl (.cons rfl .nil)))

/-- C8: invoking the producer returned by
`Template("a\x7b\x7db\x7b\x7dc").format(x, y)` yields
`("", "a") ++ normalize(x) ++ ("", "b") ++ normalize(y) ++ ("", "c")`;
the arguments are normalized inside the producer, at invocation time. -/
theorem template_interleaving (x y : PyVal) (rx ry : List PyVal)
    (hx : to_formatted_text x "" false = .ok (.fmt rx))
    (hy : to_formatted_text y "" false = .ok (.fmt ry)) :
    (Template.format "a\x7b\x7db\x7b\x7dc" [x, y]).toOption.map (fun p => p ()) =
      Option.some (.ok (.fmt (PyVal.tuple [.str "", .str "a"] :: rx ++
        PyVal.tuple [.str "", .str "b"] :: ry ++ [PyVal.tuple [.str "", .str "c"]]))) := by
  have e1 : pySplit "\x7b\x7d" "a\x7b\x7db\x7b\x7dc" = ["a", "b", "c"] := rfl
  simp [Template.format, Except.toOption, template_get_result, e1, interleaveParts,
    hx, hy, pyIter]

/-- C8 witness: `x = "x"`, `y = "y"`. -/
theorem template_interleaving_witness :
    (Template.format "a\x7b\x7db\x7b\x7dc" [PyVal.str "x", PyVal.str "y"]).toOption.map
        (fun p => p ()) =
      Option.some (.ok (.fmt [PyVal.tuple [.str "", .str "a"], PyVal.tuple [.str "", .str "x"],
        PyVal.tuple [.str "", .str "b"], PyVal.tuple [.str "", .str "y"],
        PyVal.tuple [.str "", .str "c"]])) :=
  template_interleaving (.str "x") (.str "y")
    [.tuple [.str "", .str "x"]] [.tuple [.str "", .str "y"]] rfl rfl

end PromptToolkit
